import Mathlib

/-!
Verification of the fritzer repository's authentication subsystem: the
two-round PBKDF2-HMAC-SHA-256 challenge derivation (`src/lib.rs,
Fritzbox::get_challenge_response`), the session predicate
(`Fritzbox::is_connected`), the transport-calling methods
(`update_session_info`, `connect_with_sid`, `connect_with_credentials`)
and the orchestration in `src/main.rs` (`connect_to_fritzbox`,
`connect_to_fritzbox_with_credentials`).

Bytes are `Nat` values below 256; machine words are `Nat` with explicit
masking by 2^32 - 1.  Network transport (the `Login` trait of
`src/command.rs`) is an oracle supplied as input; each run records a trace
of the calls it makes, so that ordering claims ("no credential call is
made", "the most recent challenge is used") are statements about traces.
Rust panics (`unwrap`, `panic!("..")` in the source) are explicit
`panicked` outcomes.
-/

namespace Fritzer

/-! ### SHA-256 (FIPS 180-4), used through `ring`'s `pbkdf2::PBKDF2_HMAC_SHA256`

The compression function works on a packed representation: the eight
32-bit state words packed big-endian into one `Nat`, the sixteen message
words of a block likewise.  The `cond (st2 == st2)` step is identically
`true` and merely forces strict evaluation during kernel reduction. -/

def m32 : Nat := 4294967295

def m512 : Nat := 2 ^ 512 - 1

/-- Right rotation of a 32-bit word (the argument is below 2^32). -/
def rotr32 (n x : Nat) : Nat := (x >>> n) ||| ((x <<< (32 - n)) &&& m32)

/-- The 64 SHA-256 round constants. -/
def shaK : List Nat :=
  [0x428A2F98, 0x71374491, 0xB5C0FBCF, 0xE9B5DBA5, 0x3956C25B, 0x59F111F1,
   0x923F82A4, 0xAB1C5ED5, 0xD807AA98, 0x12835B01, 0x243185BE, 0x550C7DC3,
   0x72BE5D74, 0x80DEB1FE, 0x9BDC06A7, 0xC19BF174, 0xE49B69C1, 0xEFBE4786,
   0x0FC19DC6, 0x240CA1CC, 0x2DE92C6F, 0x4A7484AA, 0x5CB0A9DC, 0x76F988DA,
   0x983E5152, 0xA831C66D, 0xB00327C8, 0xBF597FC7, 0xC6E00BF3, 0xD5A79147,
   0x06CA6351, 0x14292967, 0x27B70A85, 0x2E1B2138, 0x4D2C6DFC, 0x53380D13,
   0x650A7354, 0x766A0ABB, 0x81C2C92E, 0x92722C85, 0xA2BFE8A1, 0xA81A664B,
   0xC24B8B70, 0xC76C51A3, 0xD192E819, 0xD6990624, 0xF40E3585, 0x106AA070,
   0x19A4C116, 0x1E376C08, 0x2748774C, 0x34B0BCB5, 0x391C0CB3, 0x4ED8AA4A,
   0x5B9CCA4F, 0x682E6FF3, 0x748F82EE, 0x78A5636F, 0x84C87814, 0x8CC70208,
   0x90BEFFFA, 0xA4506CEB, 0xBEF9A3F7, 0xC67178F2]

/-- The SHA-256 initial state, packed. -/
def shaIV : Nat :=
  0x6a09e667bb67ae853c6ef372a54ff53a510e527f9b05688c1f83d9ab5be0cd19

/-- The 64 SHA-256 rounds.  `win` holds the rolling window of sixteen
schedule words (next word to consume in the top 32 bits), `st` the packed
working state. -/
def shaRounds : List Nat → Nat → Nat → Nat
  | [], _, st => st
  | k :: ks, win, st =>
      let w := win >>> 480
      let a := (st >>> 224) &&& m32
      let b := (st >>> 192) &&& m32
      let c := (st >>> 160) &&& m32
      let d := (st >>> 128) &&& m32
      let e := (st >>> 96) &&& m32
      let f := (st >>> 64) &&& m32
      let g := (st >>> 32) &&& m32
      let h := st &&& m32
      let bs1 := rotr32 6 e ^^^ rotr32 11 e ^^^ rotr32 25 e
      let ch := (e &&& f) ^^^ ((e ^^^ m32) &&& g)
      let t1 := (h + bs1 + ch + k + w) &&& m32
      let bs0 := rotr32 2 a ^^^ rotr32 13 a ^^^ rotr32 22 a
      let mj := (a &&& b) ^^^ (a &&& c) ^^^ (b &&& c)
      let t2 := (bs0 + mj) &&& m32
      let st2 := (((t1 + t2) &&& m32) <<< 224) ||| (a <<< 192) ||| (b <<< 160) |||
                 (c <<< 128) ||| (((d + t1) &&& m32) <<< 96) ||| (e <<< 64) ||| (f <<< 32) ||| g
      let s15 := (win >>> 448) &&& m32
      let s2 := (win >>> 32) &&& m32
      let wn := ((rotr32 17 s2 ^^^ rotr32 19 s2 ^^^ (s2 >>> 10)) + ((win >>> 192) &&& m32) +
                 (rotr32 7 s15 ^^^ rotr32 18 s15 ^^^ (s15 >>> 3)) + w) &&& m32
      let win2 := ((win <<< 32) &&& m512) ||| wn
      cond (st2 == st2) (shaRounds ks win2 st2) st2

/-- Word-wise (mod 2^32) addition of two packed 8-word states. -/
def add8 (x y : Nat) : Nat :=
  ((((x >>> 224) + (y >>> 224)) &&& m32) <<< 224) |||
  ((((x >>> 192) + (y >>> 192)) &&& m32) <<< 192) |||
  ((((x >>> 160) + (y >>> 160)) &&& m32) <<< 160) |||
  ((((x >>> 128) + (y >>> 128)) &&& m32) <<< 128) |||
  ((((x >>> 96) + (y >>> 96)) &&& m32) <<< 96) |||
  ((((x >>> 64) + (y >>> 64)) &&& m32) <<< 64) |||
  ((((x >>> 32) + (y >>> 32)) &&& m32) <<< 32) |||
  ((x + y) &&& m32)

/-- One SHA-256 compression of a packed 512-bit block into a packed state. -/
def shaCompress (st blk : Nat) : Nat := add8 st (shaRounds shaK blk st)

/-- Big-endian packing of a byte list into a `Nat`. -/
def bytesToNat (bs : List Nat) : Nat := bs.foldl (fun a b => a * 256 + b) 0

/-- Big-endian unpacking of a `Nat` into `k` bytes. -/
def natToBytes : Nat → Nat → List Nat
  | 0, _ => []
  | k + 1, v => natToBytes k (v >>> 8) ++ [v &&& 255]

/-- SHA-256 padding: append `0x80`, zeros to 56 mod 64, then the bit length
as eight big-endian bytes. -/
def shaPad (msg : List Nat) : List Nat :=
  msg ++ 128 :: List.replicate ((119 - msg.length % 64) % 64) 0 ++ natToBytes 8 (8 * msg.length)

/-- Compress the 64-byte blocks of `bytes` in order; `fuel` bounds the
number of blocks so the recursion is structural. -/
def shaBlocks : Nat → Nat → List Nat → Nat
  | 0, st, _ => st
  | _ + 1, st, [] => st
  | fuel + 1, st, bytes => shaBlocks fuel (shaCompress st (bytesToNat (bytes.take 64))) (bytes.drop 64)

/-- SHA-256 of a byte list, as its 32 digest bytes. -/
def sha256 (msg : List Nat) : List Nat :=
  natToBytes 32 (shaBlocks (msg.length + 9) shaIV (shaPad msg))

/-- HMAC-SHA-256 (RFC 2104): the key is hashed when longer than the
64-byte block, padded with zeros, xored with the inner and outer pads. -/
def hmacSha256 (key msg : List Nat) : List Nat :=
  let k0 := if 64 < key.length then sha256 key else key
  let kb := k0 ++ List.replicate (64 - k0.length) 0
  sha256 ((kb.map fun b => b ^^^ 92) ++ sha256 ((kb.map fun b => b ^^^ 54) ++ msg))

/-- Byte-wise xor of two equal-length byte lists. -/
def xorBytes (xs ys : List Nat) : List Nat := List.zipWith (fun a b => a ^^^ b) xs ys

/-- The PBKDF2 chain: given `U_i`, accumulate `U_{i+1} = HMAC(secret, U_i)`
into the running xor for `n` more rounds. -/
def pbkdf2Loop (secret : List Nat) : Nat → List Nat → List Nat → List Nat
  | 0, _, acc => acc
  | n + 1, u, acc =>
      let u2 := hmacSha256 secret u
      pbkdf2Loop secret n u2 (xorBytes acc u2)

/-- PBKDF2-HMAC-SHA-256 with a 32-byte output (one block, as used by
`ring::pbkdf2::derive` in `Fritzbox::get_challenge_response`, whose output
buffer is exactly one SHA-256 digest): `U_1 = HMAC(secret, salt ‖ INT(1))`,
`U_{i+1} = HMAC(secret, U_i)`, output `U_1 xor … xor U_c`.  The iteration
count is positive at every use site (`NonZeroU32`); the zero case is vacuous. -/
def pbkdf2HmacSha256 (iterations : Nat) (salt secret : List Nat) : List Nat :=
  match iterations with
  | 0 => List.replicate 32 0
  | n + 1 =>
      let u1 := hmacSha256 secret (salt ++ [0, 0, 0, 1])
      pbkdf2Loop secret n u1 u1

/-! ### Hex, integer parsing, `$`-splitting and UTF-8 (the `hex` crate,
`str::parse::<u32>`, `str::split` and `str::as_bytes` as used by
`get_challenge_response`) -/

/-- Value of one hex digit; the `hex` crate accepts both cases. -/
def hexDigitVal (c : Char) : Option Nat :=
  let n := c.toNat
  if 48 ≤ n ∧ n ≤ 57 then some (n - 48)
  else if 97 ≤ n ∧ n ≤ 102 then some (n - 87)
  else if 65 ≤ n ∧ n ≤ 70 then some (n - 55)
  else none

/-- `hex::decode` over the characters: fails on odd length or a non-hex
character. -/
def hexDecodeList : List Char → Option (List Nat)
  | [] => some []
  | [_] => none
  | c1 :: c2 :: rest =>
      match hexDigitVal c1, hexDigitVal c2, hexDecodeList rest with
      | some hi, some lo, some bs => some ((hi * 16 + lo) :: bs)
      | _, _, _ => none

/-- `hex::decode` of a string. -/
def hexDecode (s : String) : Option (List Nat) := hexDecodeList s.data

/-- One byte as two lowercase hex characters, high digit first. -/
def hexChar (n : Nat) : Char := if n < 10 then Char.ofNat (48 + n) else Char.ofNat (87 + n)

/-- `hex::encode`: lowercase hex text of a byte list. -/
def hexEncode (bs : List Nat) : String :=
  String.mk (bs.foldr (fun b acc => hexChar (b >>> 4) :: hexChar (b &&& 15) :: acc) [])

/-- Decimal value of a digit run; fails on a non-digit or an empty run. -/
def decDigitsVal : List Char → Option Nat
  | [] => none
  | cs => go cs 0
where
  go : List Char → Nat → Option Nat
    | [], acc => some acc
    | c :: rest, acc =>
        if 48 ≤ c.toNat ∧ c.toNat ≤ 57 then go rest (acc * 10 + (c.toNat - 48)) else none

/-- `str::parse::<u32>`: an optional leading `+`, then one or more decimal
digits, value below 2^32 (overflow is an error). -/
def parseU32 (s : String) : Option Nat :=
  let digits :=
    match s.data with
    | '+' :: rest => decDigitsVal rest
    | l => decDigitsVal l
  match digits with
  | some v => if v < 4294967296 then some v else none
  | none => none

/-- `str::split('$')` over the characters: the list of `$`-free runs, with
empty runs kept (an empty string yields one empty field). -/
def splitFields : List Char → List (List Char)
  | [] => [[]]
  | c :: rest =>
      if c = '$' then [] :: splitFields rest
      else
        match splitFields rest with
        | [] => [[c]]
        | fld :: flds => (c :: fld) :: flds

/-- The `$`-delimited fields of a challenge string
(`challenge.split('$').collect()` in `get_challenge_response`). -/
def splitChallenge (s : String) : List String := (splitFields s.data).map String.mk

/-- UTF-8 bytes of one code point. -/
def utf8Encode (c : Nat) : List Nat :=
  if c < 128 then [c]
  else if c < 2048 then [192 ||| (c >>> 6), 128 ||| (c &&& 63)]
  else if c < 65536 then
    [224 ||| (c >>> 12), 128 ||| ((c >>> 6) &&& 63), 128 ||| (c &&& 63)]
  else
    [240 ||| (c >>> 18), 128 ||| ((c >>> 12) &&& 63), 128 ||| ((c >>> 6) &&& 63), 128 ||| (c &&& 63)]

/-- `str::as_bytes`: the UTF-8 bytes of a string. -/
def strUtf8 (s : String) : List Nat := s.data.foldr (fun c acc => utf8Encode c.toNat ++ acc) []

/-! ### The credential derivation (`Fritzbox::get_challenge_response`,
src/lib.rs lines 119–143)

The Rust function indexes the split fields and `unwrap`s every fallible
step (missing field, bad hex, bad or zero iteration count all panic); the
embedding returns `none` exactly where the source panics. -/

def get_challenge_response (challenge password : String) : Option String :=
  let challenges := splitChallenge challenge
  match challenges[2]?, challenges[4]?, challenges[1]?, challenges[3]? with
  | some f2, some f4, some f1, some f3 =>
      match hexDecode f2, hexDecode f4, parseU32 f1, parseU32 f3 with
      | some salt1, some salt2, some n1, some n2 =>
          if n1 = 0 ∨ n2 = 0 then none
          else
            let hash1 := pbkdf2HmacSha256 n1 salt1 (strUtf8 password)
            let hash2 := pbkdf2HmacSha256 n2 salt2 hash1
            some (f4 ++ "%24" ++ hexEncode hash2)
      | _, _, _, _ => none
  | _, _, _, _ => none

/-! ### Data model (src/connection.rs) -/

/-- One entry of the `Users` list: the user name and the optional
`last`-logged-in marker (`last: Option<i8>`, flagged means `last == Some(1)`). -/
structure User where
  username : String
  last : Option Int
deriving DecidableEq, Repr

/-- The `Users` wrapper of src/connection.rs. -/
structure Users where
  users : List User
deriving DecidableEq, Repr

/-- The `SessionInfo` record parsed from the login endpoint: session id,
challenge string and user list. -/
structure SessionInfo where
  sid : String
  challenge : String
  users : Users
deriving DecidableEq, Repr

/-- The reserved unauthenticated session id (`INVALID_SESSION`, src/lib.rs). -/
def INVALID_SESSION : String := "0000000000000000"

/-- The mutable state of a `Fritzbox` value: its `session_info` field.  The
url, HTTP client and strategy objects carry no state the claims mention. -/
structure FritzboxState where
  session_info : Option SessionInfo
deriving DecidableEq, Repr

/-- `Fritzbox::is_connected` (src/lib.rs lines 67–72). -/
def is_connected (fb : FritzboxState) : Bool :=
  match fb.session_info with
  | some s => !(s.sid == INVALID_SESSION)
  | none => false

/-! ### The transport oracle and run traces

The `Login` trait (src/command.rs) performs the network exchanges; a run's
responses are inputs here.  `get_session_info` is indexed by how many times
it has been called during the run (the same endpoint can return a new
challenge on each call); the two other calls happen at most once per run. -/

/-- The transport responses available to one authentication run.  An
`Except.error` is a transport failure (`Box<dyn Error>`, opaque). -/
structure LoginOracle where
  get_session_info : Nat → Except String (Option SessionInfo)
  connect_with_sid : String → Except String (Option SessionInfo)
  connect_with_credentials : String → String → Except String (Option SessionInfo)

/-- The observable steps of a run: the three network calls, the (pure)
credential derivation, and the session-id cache write. -/
inductive Event where
  | probe : Event
  | sidAuth (sid : String) : Event
  | credAuth (username response : String) : Event
  | deriveResponse (challenge password : String) : Event
  | storeSid (sid : String) : Event
deriving DecidableEq, Repr

/-- Outcome of a library call that can propagate a transport error or hit a
Rust panic (`unwrap` on `None`, malformed challenge). -/
inductive LibResult where
  | ok (connected : Bool) : LibResult
  | err (e : String) : LibResult
  | panicked (msg : String) : LibResult
deriving DecidableEq, Repr

/-- Outcome of a `main.rs` run: normal return, or a Rust panic. -/
inductive MainResult where
  | ok : MainResult
  | panicked (msg : String) : MainResult
deriving DecidableEq, Repr

/-- `Fritzbox::update_session_info` (src/lib.rs lines 74–78): one probe of
the login endpoint; `k` is how many probes this run has already made.  On a
transport error the `?` operator returns before the assignment, so
`session_info` keeps its previous value. -/
def update_session_info (o : LoginOracle) (k : Nat) (fb : FritzboxState) :
    FritzboxState × List Event × Except String Unit :=
  match o.get_session_info k with
  | .error e => (fb, [.probe], .error e)
  | .ok v => (⟨v⟩, [.probe], .ok ())

/-- `Fritzbox::connect_with_sid` (src/lib.rs lines 80–90): submit a stored
session id; on success the returned record replaces `session_info` wholly
and the call reports `is_connected` of the new state. -/
def connect_with_sid (o : LoginOracle) (fb : FritzboxState) (sid : String) :
    FritzboxState × List Event × Except String Bool :=
  match o.connect_with_sid sid with
  | .error e => (fb, [.sidAuth sid], .error e)
  | .ok v => (⟨v⟩, [.sidAuth sid], .ok (is_connected ⟨v⟩))

/-- `Fritzbox::connect_with_credentials` (src/lib.rs lines 92–108): probe
for a fresh record, derive the response from the challenge of that fresh
record (`self.session_info.as_ref().unwrap()`), then submit
username + response.  The `unwrap` on an absent record and the `unwrap`s
inside `get_challenge_response` are panics. -/
def connect_with_credentials (o : LoginOracle) (k : Nat) (fb : FritzboxState)
    (username password : String) : FritzboxState × List Event × LibResult :=
  match o.get_session_info k with
  | .error e => (fb, [.probe], .err e)
  | .ok v =>
      match v with
      | none => (⟨none⟩, [.probe], .panicked "unwrap on None session_info")
      | some si =>
          match get_challenge_response si.challenge password with
          | none =>
              (⟨some si⟩, [.probe, .deriveResponse si.challenge password],
               .panicked "malformed challenge")
          | some response =>
              match o.connect_with_credentials username response with
              | .error e =>
                  (⟨some si⟩,
                   [.probe, .deriveResponse si.challenge password, .credAuth username response],
                   .err e)
              | .ok v2 =>
                  (⟨v2⟩,
                   [.probe, .deriveResponse si.challenge password, .credAuth username response],
                   .ok (is_connected ⟨v2⟩))

/-! ### The orchestration (src/main.rs) -/

/-- The username resolution block of `connect_to_fritzbox_with_credentials`
(src/main.rs lines 85–100): the first user whose `last` field is
`Some(1)`, else the caller-supplied username; `none` means the code panics
with "No username available.". -/
def resolveUsername (si : SessionInfo) (username : Option String) : Option String :=
  match si.users.users.find? (fun u =>
      match u.last with
      | some l => l == 1
      | none => false) with
  | some u => some u.username
  | none => username

/-- `connect_to_fritzbox_with_credentials` (src/main.rs lines 79–116):
resolve the username from the current record, call
`Fritzbox::connect_with_credentials` (its probe is this run's probe number
`k`), panic on a transport error, then write the resulting sid to the
cache file (`store_sid`; a write failure is only logged, so it does not
appear in the outcome).  The boolean returned by
`connect_with_credentials` is never inspected. -/
def connect_to_fritzbox_with_credentials (o : LoginOracle) (k : Nat)
    (fb : FritzboxState) (username : Option String) (password : String) :
    FritzboxState × List Event × MainResult :=
  match fb.session_info with
  | none => (fb, [], .panicked "unwrap on None session_info")
  | some si =>
      match resolveUsername si username with
      | none => (fb, [], .panicked "No username available.")
      | some un =>
          match connect_with_credentials o k fb un password with
          | (fb2, ev, .err _) => (fb2, ev, .panicked "Unable to connect to Fritzbox!")
          | (fb2, ev, .panicked m) => (fb2, ev, .panicked m)
          | (fb2, ev, .ok _) =>
              match fb2.session_info with
              | none => (fb2, ev, .panicked "unwrap on None session_info")
              | some si2 => (fb2, ev ++ [.storeSid si2.sid], .ok)

/-- `connect_to_fritzbox` (src/main.rs lines 118–190): probe (fatal on
error), then either no cached sid (straight to credentials), or try the
cached sid and fall back to credentials when the call errors or the
returned record is not connected. -/
def connect_to_fritzbox (o : LoginOracle) (stored_sid : Option String)
    (username : Option String) (password : String) :
    FritzboxState × List Event × MainResult :=
  match update_session_info o 0 ⟨none⟩ with
  | (fb1, ev1, .error _) => (fb1, ev1, .panicked "Unable to receive session information")
  | (fb1, ev1, .ok _) =>
      match stored_sid with
      | none =>
          match connect_to_fritzbox_with_credentials o 1 fb1 username password with
          | (fb2, ev2, r2) => (fb2, ev1 ++ ev2, r2)
      | some sid =>
          match connect_with_sid o fb1 sid with
          | (fb2, ev2, .error _) =>
              match connect_to_fritzbox_with_credentials o 1 fb2 username password with
              | (fb3, ev3, r3) => (fb3, ev1 ++ ev2 ++ ev3, r3)
          | (fb2, ev2, .ok conn) =>
              if conn then (fb2, ev1 ++ ev2, .ok)
              else
                match connect_to_fritzbox_with_credentials o 1 fb2 username password with
                | (fb3, ev3, r3) => (fb3, ev1 ++ ev2 ++ ev3, r3)

/-- Is an event a credential-authentication network call? -/
def isCredAuth : Event → Bool
  | .credAuth _ _ => true
  | _ => false

/-- Is an event an invocation of the credential derivation? -/
def isDerive : Event → Bool
  | .deriveResponse _ _ => true
  | _ => false

/-! ### Helper lemmas -/

/-- The first element satisfying a predicate is the head of the filtered list. -/
lemma find_eq_head_filter {α : Type} (p : α → Bool) (l : List α) :
    l.find? p = (l.filter p).head? := by
  induction l with
  | nil => rfl
  | cons a l ih =>
      by_cases h : p a
      · rw [List.find?_cons_of_pos _ h, List.filter_cons_of_pos h, List.head?_cons]
      · rw [List.find?_cons_of_neg _ h, List.filter_cons_of_neg h, ih]

/-- The user-flag test of `connect_to_fritzbox_with_credentials`
(`u.last.is_some() && u.last.unwrap() == 1`) is equality with `Some(1)`. -/
lemma lastFlag_eq (u : User) :
    (match u.last with
      | some l => l == (1 : Int)
      | none => false) = (u.last == some 1) := by
  cases u.last <;> rfl

/-- Core characterization of `get_challenge_response` on a well-formed
challenge: with fields `[f0, f1, f2, f3, f4]`, hex salts and positive
iteration counts, the result is the round-two digest of the two chained
PBKDF2 runs, rendered as the salt-2 field text, `%24`, and lowercase hex. -/
lemma get_challenge_response_eq (challenge password : String)
    (f0 f1 f2 f3 f4 : String) (salt1 salt2 : List Nat) (n1 n2 : Nat)
    (hsplit : splitChallenge challenge = [f0, f1, f2, f3, f4])
    (hx2 : hexDecode f2 = some salt1) (hx4 : hexDecode f4 = some salt2)
    (hn1 : parseU32 f1 = some n1) (hn3 : parseU32 f3 = some n2)
    (hp1 : 0 < n1) (hp2 : 0 < n2) :
    get_challenge_response challenge password =
      some (f4 ++ "%24" ++
        hexEncode (pbkdf2HmacSha256 n2 salt2
          (pbkdf2HmacSha256 n1 salt1 (strUtf8 password)))) := by
  have hcond : ¬(n1 = 0 ∨ n2 = 0) := by omega
  simp [get_challenge_response, hsplit, hx2, hx4, hn1, hn3, hcond]

/-! ### The claims -/

/-- C1: for every challenge string with five `$`-delimited fields whose
salts are valid hex and whose iteration fields parse as positive integers,
the derivation is PBKDF2-HMAC-SHA-256 with `n1` rounds over `salt1` and the
UTF-8 password bytes giving `hash1`, then PBKDF2-HMAC-SHA-256 with `n2`
rounds over `salt2` keyed by the raw bytes of `hash1`, and the result is
the salt-2 field text, the literal `%24`, and the lowercase hex of `hash2`. -/
theorem c1_two_round_derivation (challenge password : String)
    (f0 f1 f2 f3 f4 : String) (salt1 salt2 : List Nat) (n1 n2 : Nat)
    (hsplit : splitChallenge challenge = [f0, f1, f2, f3, f4])
    (hx2 : hexDecode f2 = some salt1) (hx4 : hexDecode f4 = some salt2)
    (hn1 : parseU32 f1 = some n1) (hn3 : parseU32 f3 = some n2)
    (hp1 : 0 < n1) (hp2 : 0 < n2) :
    get_challenge_response challenge password =
      some (f4 ++ "%24" ++
        hexEncode (pbkdf2HmacSha256 n2 salt2
          (pbkdf2HmacSha256 n1 salt1 (strUtf8 password)))) :=
  get_challenge_response_eq challenge password f0 f1 f2 f3 f4 salt1 salt2 n1 n2
    hsplit hx2 hx4 hn1 hn3 hp1 hp2

/-- C1 witness: the derivation contract at the concrete challenge
`2$1$ab$1$cd` and password `pw`. -/
theorem c1_two_round_derivation_witness :
    splitChallenge "2$1$ab$1$cd" = ["2", "1", "ab", "1", "cd"] ∧
    hexDecode "ab" = some [171] ∧ hexDecode "cd" = some [205] ∧
    parseU32 "1" = some 1 ∧ 0 < 1 ∧
    get_challenge_response "2$1$ab$1$cd" "pw" =
      some ("cd" ++ "%24" ++
        hexEncode (pbkdf2HmacSha256 1 [205] (pbkdf2HmacSha256 1 [171] (strUtf8 "pw")))) :=
  ⟨by decide, by decide, by decide, by decide, by decide,
    c1_two_round_derivation "2$1$ab$1$cd" "pw" "2" "1" "ab" "1" "cd" [171] [205] 1 1
      (by decide) (by decide) (by decide) (by decide) (by decide) (by decide) (by decide)⟩

/-- C8: `is_connected` is true exactly when a session record is present
and its sid differs from the all-zero sentinel; in particular it is false
with no record and false at the sentinel. -/
theorem c8_is_connected_iff (fb : FritzboxState) :
    is_connected fb = true ↔ ∃ s, fb.session_info = some s ∧ s.sid ≠ INVALID_SESSION := by
  cases hfb : fb.session_info with
  | none => simp [is_connected, hfb]
  | some s => simp [is_connected, hfb]

/-- C10: when the transport call fails, `update_session_info` and
`connect_with_sid` both propagate the error and leave the stored
`session_info` untouched. -/
theorem c10_error_preserves_session_info (o : LoginOracle) (k : Nat)
    (fb : FritzboxState) (sid e1 e2 : String)
    (h1 : o.get_session_info k = .error e1)
    (h2 : o.connect_with_sid sid = .error e2) :
    update_session_info o k fb = (fb, [.probe], .error e1) ∧
    connect_with_sid o fb sid = (fb, [.sidAuth sid], .error e2) := by
  constructor
  · simp [update_session_info, h1]
  · simp [connect_with_sid, h2]

/-- C10 witness: an always-failing transport leaves a concrete state's
record in place. -/
theorem c10_error_preserves_session_info_witness :
    (LoginOracle.mk (fun _ => .error "down") (fun _ => .error "down")
        (fun _ _ => .error "down")).get_session_info 0 = .error "down" ∧
    update_session_info
        (LoginOracle.mk (fun _ => .error "down") (fun _ => .error "down")
          (fun _ _ => .error "down")) 0
        ⟨some ⟨"1111111111111111", "c", ⟨[]⟩⟩⟩ =
      (⟨some ⟨"1111111111111111", "c", ⟨[]⟩⟩⟩, [.probe], .error "down") ∧
    connect_with_sid
        (LoginOracle.mk (fun _ => .error "down") (fun _ => .error "down")
          (fun _ _ => .error "down"))
        ⟨some ⟨"1111111111111111", "c", ⟨[]⟩⟩⟩ "abcd" =
      (⟨some ⟨"1111111111111111", "c", ⟨[]⟩⟩⟩, [.sidAuth "abcd"], .error "down") := by
  refine ⟨rfl, ?_⟩
  exact c10_error_preserves_session_info
    (LoginOracle.mk (fun _ => .error "down") (fun _ => .error "down")
      (fun _ _ => .error "down")) 0
    ⟨some ⟨"1111111111111111", "c", ⟨[]⟩⟩⟩ "abcd" "down" "down" rfl rfl

/-- The spec's `MalformedChallenge` condition on a challenge string: fewer
than five `$`-delimited fields, an iteration field that is non-numeric or
non-positive, or a salt field that is not valid hex. -/
def MalformedChallenge (c : String) : Prop :=
  (splitChallenge c).length < 5 ∨
  (∃ f, (splitChallenge c)[1]? = some f ∧ (parseU32 f = none ∨ parseU32 f = some 0)) ∨
  (∃ f, (splitChallenge c)[3]? = some f ∧ (parseU32 f = none ∨ parseU32 f = some 0)) ∨
  (∃ f, (splitChallenge c)[2]? = some f ∧ hexDecode f = none) ∨
  (∃ f, (splitChallenge c)[4]? = some f ∧ hexDecode f = none)

/-- A malformed challenge makes `get_challenge_response` fail (the source
panics on the corresponding `unwrap`). -/
lemma get_challenge_response_malformed (c pw : String) (hbad : MalformedChallenge c) :
    get_challenge_response c pw = none := by
  rcases e2 : (splitChallenge c)[2]? with _ | f2
  · simp [get_challenge_response, e2]
  rcases e4 : (splitChallenge c)[4]? with _ | f4
  · simp [get_challenge_response, e2, e4]
  rcases e1 : (splitChallenge c)[1]? with _ | f1
  · simp [get_challenge_response, e2, e4, e1]
  rcases e3 : (splitChallenge c)[3]? with _ | f3
  · simp [get_challenge_response, e2, e4, e1, e3]
  have hlen5 : 5 ≤ (splitChallenge c).length := by
    by_contra h
    rw [List.getElem?_eq_none (by omega)] at e4
    exact Option.noConfusion e4
  rcases x2 : hexDecode f2 with _ | s1
  · simp [get_challenge_response, e2, e4, e1, e3, x2]
  rcases x4 : hexDecode f4 with _ | s2
  · simp [get_challenge_response, e2, e4, e1, e3, x2, x4]
  rcases p1 : parseU32 f1 with _ | n1
  · simp [get_challenge_response, e2, e4, e1, e3, x2, x4, p1]
  rcases p3 : parseU32 f3 with _ | n2
  · simp [get_challenge_response, e2, e4, e1, e3, x2, x4, p1, p3]
  rcases hbad with hlen | ⟨f, hf, hp⟩ | ⟨f, hf, hp⟩ | ⟨f, hf, hx⟩ | ⟨f, hf, hx⟩
  · omega
  · rw [e1] at hf
    injection hf with hf
    subst hf
    rcases hp with hp | hp
    · rw [p1] at hp; exact Option.noConfusion hp
    · rw [p1] at hp
      injection hp with hp
      simp [get_challenge_response, e2, e4, e1, e3, x2, x4, p1, p3, hp]
  · rw [e3] at hf
    injection hf with hf
    subst hf
    rcases hp with hp | hp
    · rw [p3] at hp; exact Option.noConfusion hp
    · rw [p3] at hp
      injection hp with hp
      simp [get_challenge_response, e2, e4, e1, e3, x2, x4, p1, p3, hp]
  · rw [e2] at hf
    injection hf with hf
    subst hf
    rw [x2] at hx
    exact Option.noConfusion hx
  · rw [e4] at hf
    injection hf with hf
    subst hf
    rw [x4] at hx
    exact Option.noConfusion hx

/-- C3: a challenge with fewer than five fields, a non-numeric or
non-positive iteration field, or a non-hex salt makes the derivation fail
(the source's `unwrap` panic, the spec's `MalformedChallenge`), and the run
makes no credential network call: the trace of
`connect_with_credentials` contains no `credAuth` event. -/
theorem c3_malformed_fails_before_credential_call (o : LoginOracle) (k : Nat)
    (fb : FritzboxState) (si : SessionInfo) (un pw : String)
    (hprobe : o.get_session_info k = .ok (some si))
    (hbad : MalformedChallenge si.challenge) :
    get_challenge_response si.challenge pw = none ∧
    (connect_with_credentials o k fb un pw).2.2 = .panicked "malformed challenge" ∧
    (connect_with_credentials o k fb un pw).2.1.filter isCredAuth = [] := by
  have hnone := get_challenge_response_malformed si.challenge pw hbad
  refine ⟨hnone, ?_, ?_⟩ <;> simp [connect_with_credentials, hprobe, hnone, isCredAuth]

/-- Transport responses used by the C3 witness: the probe returns a record
whose challenge has a zero second-round... zero first-round iteration count. -/
def c3Oracle : LoginOracle where
  get_session_info := fun _ => .ok (some ⟨INVALID_SESSION, "2$0$ab$1$cd", ⟨[]⟩⟩)
  connect_with_sid := fun _ => .ok none
  connect_with_credentials := fun _ _ => .ok none

/-- C3 witness: the concrete challenge `2$0$ab$1$cd` (zero iteration
count) fails before any credential call. -/
theorem c3_malformed_fails_before_credential_call_witness :
    c3Oracle.get_session_info 0 = .ok (some ⟨INVALID_SESSION, "2$0$ab$1$cd", ⟨[]⟩⟩) ∧
    MalformedChallenge "2$0$ab$1$cd" ∧
    (get_challenge_response "2$0$ab$1$cd" "pw" = none ∧
      (connect_with_credentials c3Oracle 0 ⟨none⟩ "admin" "pw").2.2 =
        .panicked "malformed challenge" ∧
      (connect_with_credentials c3Oracle 0 ⟨none⟩ "admin" "pw").2.1.filter isCredAuth = []) :=
  ⟨rfl, Or.inr (Or.inl ⟨"0", by decide, Or.inr (by decide)⟩),
    c3_malformed_fails_before_credential_call c3Oracle 0 ⟨none⟩
      ⟨INVALID_SESSION, "2$0$ab$1$cd", ⟨[]⟩⟩ "admin" "pw" rfl
      (Or.inr (Or.inl ⟨"0", by decide, Or.inr (by decide)⟩))⟩

/-- C4 counterexample: the challenge `1$1$ab$1$cd` has first field `"1"`,
not `"2"`, yet the code processes it without any failure — there is no
protocol-version check in `get_challenge_response`. -/
theorem c4_counterexample_no_version_failure :
    (splitChallenge "1$1$ab$1$cd")[0]? = some "1" ∧ ("1" : String) ≠ "2" ∧
    get_challenge_response "1$1$ab$1$cd" "pw" =
      some "cd%245d1a13e5b1f080f88660c2189d77fbbe4a61a0bff793adc2b9fe8db0d0d2432d" := by
  decide!

/-- C4 amended: the code never inspects the protocol-version field.  A
challenge whose first field differs from `"2"` but is otherwise well
formed is processed exactly like a version-2 challenge; no
`UnsupportedProtocolVersion` failure exists. -/
theorem c4_no_version_check (challenge password : String)
    (f0 f1 f2 f3 f4 : String) (salt1 salt2 : List Nat) (n1 n2 : Nat)
    (hsplit : splitChallenge challenge = [f0, f1, f2, f3, f4])
    (_hv : f0 ≠ "2")
    (hx2 : hexDecode f2 = some salt1) (hx4 : hexDecode f4 = some salt2)
    (hn1 : parseU32 f1 = some n1) (hn3 : parseU32 f3 = some n2)
    (hp1 : 0 < n1) (hp2 : 0 < n2) :
    get_challenge_response challenge password =
      some (f4 ++ "%24" ++
        hexEncode (pbkdf2HmacSha256 n2 salt2
          (pbkdf2HmacSha256 n1 salt1 (strUtf8 password)))) :=
  get_challenge_response_eq challenge password f0 f1 f2 f3 f4 salt1 salt2 n1 n2
    hsplit hx2 hx4 hn1 hn3 hp1 hp2

/-- C4 witness: the amended statement at the version-`"1"` challenge
`1$1$ab$1$cd`. -/
theorem c4_no_version_check_witness :
    splitChallenge "1$1$ab$1$cd" = ["1", "1", "ab", "1", "cd"] ∧
    ("1" : String) ≠ "2" ∧
    hexDecode "ab" = some [171] ∧ hexDecode "cd" = some [205] ∧
    parseU32 "1" = some 1 ∧ 0 < 1 ∧
    get_challenge_response "1$1$ab$1$cd" "pw" =
      some ("cd" ++ "%24" ++
        hexEncode (pbkdf2HmacSha256 1 [205] (pbkdf2HmacSha256 1 [171] (strUtf8 "pw")))) :=
  ⟨by decide, by decide, by decide, by decide, by decide, by decide,
    c4_no_version_check "1$1$ab$1$cd" "pw" "1" "1" "ab" "1" "cd" [171] [205] 1 1
      (by decide) (by decide) (by decide) (by decide) (by decide) (by decide)
      (by decide) (by decide)⟩

/-- Transport responses used for the C5 run: the credential exchange
returns a record carrying the sentinel sid. -/
def c5Oracle : LoginOracle where
  get_session_info := fun _ => .ok (some ⟨INVALID_SESSION, "2$1$ab$1$cd", ⟨[]⟩⟩)
  connect_with_sid := fun _ => .ok none
  connect_with_credentials := fun _ _ => .ok (some ⟨INVALID_SESSION, "", ⟨[]⟩⟩)

/-- C5: when the credential exchange answers with the sentinel sid, the
run nevertheless finishes without any error, writes the sentinel sid to
the session cache, and keeps the sentinel record as the current session —
`connect_to_fritzbox_with_credentials` tests only `result.is_err()` and
ignores the `Ok(false)` returned for an unauthenticated record.  This
contradicts the code's own treatment of the sentinel (`INVALID_SESSION`,
`is_connected`, and the "Cached SID invalid" fallback) and the spec's
`InvalidCredentials` failure. -/
theorem c5_sentinel_sid_not_rejected :
    (connect_to_fritzbox c5Oracle none (some "admin") "pw").2.2 = .ok ∧
    Event.storeSid INVALID_SESSION ∈ (connect_to_fritzbox c5Oracle none (some "admin") "pw").2.1 ∧
    (connect_to_fritzbox c5Oracle none (some "admin") "pw").1 =
      ⟨some ⟨INVALID_SESSION, "", ⟨[]⟩⟩⟩ := by
  decide!

/-- C6: when a cached sid is accepted (the returned record is present with
a non-sentinel sid), the run performs no credential derivation and no
credential network call, succeeds, and keeps the accepted record. -/
theorem c6_cached_token_success_skips_derivation (o : LoginOracle)
    (sid : String) (v0 : Option SessionInfo) (si : SessionInfo)
    (username : Option String) (pw : String)
    (h0 : o.get_session_info 0 = .ok v0)
    (hsid : o.connect_with_sid sid = .ok (some si))
    (hconn : si.sid ≠ INVALID_SESSION) :
    (connect_to_fritzbox o (some sid) username pw).2.1.filter
        (fun e => isDerive e || isCredAuth e) = [] ∧
    (connect_to_fritzbox o (some sid) username pw).2.2 = .ok ∧
    (connect_to_fritzbox o (some sid) username pw).1 = ⟨some si⟩ := by
  have hc : is_connected ⟨some si⟩ = true := by
    simp [is_connected, hconn]
  refine ⟨?_, ?_, ?_⟩ <;>
    simp [connect_to_fritzbox, update_session_info, connect_with_sid, h0, hsid, hc,
      isDerive, isCredAuth]

/-- Transport responses used by the C6 witness: the cached sid is accepted
with a fresh non-sentinel record. -/
def c6Oracle : LoginOracle where
  get_session_info := fun _ => .ok (some ⟨INVALID_SESSION, "2$1$ab$1$cd", ⟨[]⟩⟩)
  connect_with_sid := fun _ => .ok (some ⟨"1234567890abcdef", "2$1$ab$1$cd", ⟨[]⟩⟩)
  connect_with_credentials := fun _ _ => .ok none

/-- C6 witness: a run whose cached sid is accepted makes no derivation and
no credential call. -/
theorem c6_cached_token_success_skips_derivation_witness :
    c6Oracle.get_session_info 0 = .ok (some ⟨INVALID_SESSION, "2$1$ab$1$cd", ⟨[]⟩⟩) ∧
    c6Oracle.connect_with_sid "feed" = .ok (some ⟨"1234567890abcdef", "2$1$ab$1$cd", ⟨[]⟩⟩) ∧
    ("1234567890abcdef" : String) ≠ INVALID_SESSION ∧
    ((connect_to_fritzbox c6Oracle (some "feed") none "pw").2.1.filter
        (fun e => isDerive e || isCredAuth e) = [] ∧
      (connect_to_fritzbox c6Oracle (some "feed") none "pw").2.2 = .ok ∧
      (connect_to_fritzbox c6Oracle (some "feed") none "pw").1 =
        ⟨some ⟨"1234567890abcdef", "2$1$ab$1$cd", ⟨[]⟩⟩⟩) :=
  ⟨rfl, rfl, by decide,
    c6_cached_token_success_skips_derivation c6Oracle "feed"
      (some ⟨INVALID_SESSION, "2$1$ab$1$cd", ⟨[]⟩⟩) ⟨"1234567890abcdef", "2$1$ab$1$cd", ⟨[]⟩⟩
      none "pw" rfl rfl (by decide)⟩

/-- The cached-token branch did not authenticate: no token was stored, or
the attempt errored, or the returned record is not connected. -/
def cachedRejected (o : LoginOracle) (stored : Option String) : Prop :=
  match stored with
  | none => True
  | some s =>
      match o.connect_with_sid s with
      | .error _ => True
      | .ok v => is_connected ⟨v⟩ = false

/-- The session record held after the probe and the optional cached-token
attempt of `connect_to_fritzbox`: the attempt's response when one was made
and answered, else the probe's record. -/
def recordAfterCachedAttempt (o : LoginOracle) (si0 : SessionInfo) :
    Option String → Option SessionInfo
  | none => some si0
  | some s =>
      match o.connect_with_sid s with
      | .error _ => some si0
      | .ok v => v

/-- Trace of the credential path: with a resolvable username, a successful
inner probe returning `si1` and a well-formed challenge, the trace holds
exactly one credential call — with the response derived from `si1`'s
challenge — and exactly one derivation — from `si1`'s challenge. -/
lemma connect_to_fritzbox_with_credentials_trace (o : LoginOracle) (k : Nat)
    (fb : FritzboxState) (si si1 : SessionInfo) (username : Option String)
    (un pw resp : String)
    (hfb : fb.session_info = some si)
    (hun : resolveUsername si username = some un)
    (h1 : o.get_session_info k = .ok (some si1))
    (hresp : get_challenge_response si1.challenge pw = some resp) :
    (connect_to_fritzbox_with_credentials o k fb username pw).2.1.filter isCredAuth =
      [.credAuth un resp] ∧
    (connect_to_fritzbox_with_credentials o k fb username pw).2.1.filter isDerive =
      [.deriveResponse si1.challenge pw] := by
  rcases hcr : o.connect_with_credentials un resp with e | v2
  · constructor <;>
      simp [connect_to_fritzbox_with_credentials, connect_with_credentials, hfb, hun,
        h1, hresp, hcr, isCredAuth, isDerive]
  · rcases v2 with _ | si2 <;> constructor <;>
      simp [connect_to_fritzbox_with_credentials, connect_with_credentials, hfb, hun,
        h1, hresp, hcr, isCredAuth, isDerive]

/-- C7: when no cached token exists or the cached-token attempt is
rejected, the run makes exactly one credential call, and both the
derivation and the submitted response use the challenge of `si1`, the
record returned by the probe `connect_with_credentials` itself performs —
the most recently obtained record, never the earlier one from the initial
probe or the rejected cached-token attempt. -/
theorem c7_single_credential_attempt_uses_latest_challenge (o : LoginOracle)
    (stored username : Option String) (si0 siE si1 : SessionInfo) (un pw resp : String)
    (h0 : o.get_session_info 0 = .ok (some si0))
    (hrej : cachedRejected o stored)
    (hentry : recordAfterCachedAttempt o si0 stored = some siE)
    (hun : resolveUsername siE username = some un)
    (h1 : o.get_session_info 1 = .ok (some si1))
    (hresp : get_challenge_response si1.challenge pw = some resp) :
    (connect_to_fritzbox o stored username pw).2.1.filter isCredAuth =
      [.credAuth un resp] ∧
    (connect_to_fritzbox o stored username pw).2.1.filter isDerive =
      [.deriveResponse si1.challenge pw] := by
  rcases stored with _ | s
  · have hE : siE = si0 := by
      have := hentry
      simp [recordAfterCachedAttempt] at this
      exact this.symm
    subst hE
    rcases hW : connect_to_fritzbox_with_credentials o 1 ⟨some siE⟩ username pw
      with ⟨fb2, ev2, r2⟩
    have hh := connect_to_fritzbox_with_credentials_trace o 1 ⟨some siE⟩ siE si1
      username un pw resp rfl hun h1 hresp
    rw [hW] at hh
    constructor <;>
      simp [connect_to_fritzbox, update_session_info, h0, hW, List.filter_append,
        isCredAuth, isDerive, hh.1, hh.2]
  · rcases hcs : o.connect_with_sid s with e | v
    · have hE : siE = si0 := by
        have := hentry
        simp [recordAfterCachedAttempt, hcs] at this
        exact this.symm
      subst hE
      rcases hW : connect_to_fritzbox_with_credentials o 1 ⟨some siE⟩ username pw
        with ⟨fb2, ev2, r2⟩
      have hh := connect_to_fritzbox_with_credentials_trace o 1 ⟨some siE⟩ siE si1
        username un pw resp rfl hun h1 hresp
      rw [hW] at hh
      constructor <;>
        simp [connect_to_fritzbox, update_session_info, connect_with_sid, h0, hcs, hW,
          List.filter_append, isCredAuth, isDerive, hh.1, hh.2]
    · have hv : v = some siE := by
        have := hentry
        simp [recordAfterCachedAttempt, hcs] at this
        exact this
      subst hv
      have hrj : is_connected ⟨some siE⟩ = false := by
        have := hrej
        simp [cachedRejected, hcs] at this
        exact this
      rcases hW : connect_to_fritzbox_with_credentials o 1 ⟨some siE⟩ username pw
        with ⟨fb2, ev2, r2⟩
      have hh := connect_to_fritzbox_with_credentials_trace o 1 ⟨some siE⟩ siE si1
        username un pw resp rfl hun h1 hresp
      rw [hW] at hh
      constructor <;>
        simp [connect_to_fritzbox, update_session_info, connect_with_sid, h0, hcs, hrj,
          hW, List.filter_append, isCredAuth, isDerive, hh.1, hh.2]

/-- Transport responses used by the C7 witness: the cached sid is rejected
with a sentinel record, and the second probe returns a record whose
challenge differs from the first probe's. -/
def c7Oracle : LoginOracle where
  get_session_info := fun k =>
    if k = 0 then .ok (some ⟨INVALID_SESSION, "stale", ⟨[]⟩⟩)
    else .ok (some ⟨INVALID_SESSION, "2$1$ab$1$cd", ⟨[]⟩⟩)
  connect_with_sid := fun _ => .ok (some ⟨INVALID_SESSION, "also$stale", ⟨[]⟩⟩)
  connect_with_credentials := fun _ _ => .ok (some ⟨"1234567890abcdef", "", ⟨[]⟩⟩)

/-- C7 witness: a rejected cached sid leads to exactly one credential call
derived from the second probe's challenge `2$1$ab$1$cd`, not from the
stale challenges of the first probe or the rejected attempt. -/
theorem c7_single_credential_attempt_uses_latest_challenge_witness :
    c7Oracle.get_session_info 0 = .ok (some ⟨INVALID_SESSION, "stale", ⟨[]⟩⟩) ∧
    cachedRejected c7Oracle (some "feed") ∧
    recordAfterCachedAttempt c7Oracle ⟨INVALID_SESSION, "stale", ⟨[]⟩⟩ (some "feed") =
      some ⟨INVALID_SESSION, "also$stale", ⟨[]⟩⟩ ∧
    resolveUsername ⟨INVALID_SESSION, "also$stale", ⟨[]⟩⟩ (some "admin") = some "admin" ∧
    c7Oracle.get_session_info 1 = .ok (some ⟨INVALID_SESSION, "2$1$ab$1$cd", ⟨[]⟩⟩) ∧
    get_challenge_response "2$1$ab$1$cd" "pw" =
      some "cd%245d1a13e5b1f080f88660c2189d77fbbe4a61a0bff793adc2b9fe8db0d0d2432d" ∧
    ((connect_to_fritzbox c7Oracle (some "feed") (some "admin") "pw").2.1.filter isCredAuth =
        [.credAuth "admin" "cd%245d1a13e5b1f080f88660c2189d77fbbe4a61a0bff793adc2b9fe8db0d0d2432d"] ∧
      (connect_to_fritzbox c7Oracle (some "feed") (some "admin") "pw").2.1.filter isDerive =
        [.deriveResponse "2$1$ab$1$cd" "pw"]) :=
  ⟨rfl,
    (by decide : is_connected ⟨some ⟨INVALID_SESSION, "also$stale", ⟨[]⟩⟩⟩ = false),
    rfl, rfl, rfl, by decide!,
    c7_single_credential_attempt_uses_latest_challenge c7Oracle (some "feed") (some "admin")
      ⟨INVALID_SESSION, "stale", ⟨[]⟩⟩ ⟨INVALID_SESSION, "also$stale", ⟨[]⟩⟩
      ⟨INVALID_SESSION, "2$1$ab$1$cd", ⟨[]⟩⟩ "admin" "pw"
      "cd%245d1a13e5b1f080f88660c2189d77fbbe4a61a0bff793adc2b9fe8db0d0d2432d"
      rfl
      (by decide : is_connected ⟨some ⟨INVALID_SESSION, "also$stale", ⟨[]⟩⟩⟩ = false)
      rfl rfl rfl (by decide!)⟩

/-- C9: username resolution prefers the first user of the record's list
flagged `last == Some(1)`; otherwise the caller-supplied username; with
neither, the run panics ("No username available.") with an empty trace —
before any credential exchange; and every credential call of the run uses
the resolved name. -/
theorem c9_username_resolution (o : LoginOracle) (k : Nat) (fb : FritzboxState)
    (si : SessionInfo) (username : Option String) (pw : String)
    (hfb : fb.session_info = some si) :
    (∀ u, (si.users.users.filter (fun u => u.last == some 1)).head? = some u →
      resolveUsername si username = some u.username) ∧
    (si.users.users.filter (fun u => u.last == some 1) = [] →
      resolveUsername si username = username) ∧
    (si.users.users.filter (fun u => u.last == some 1) = [] → username = none →
      connect_to_fritzbox_with_credentials o k fb username pw =
        (fb, [], .panicked "No username available.")) ∧
    (∀ un2 resp, Event.credAuth un2 resp ∈
        (connect_to_fritzbox_with_credentials o k fb username pw).2.1 →
      resolveUsername si username = some un2) := by
  have hpred : (fun u : User =>
      match u.last with
      | some l => l == (1 : Int)
      | none => false) = fun u : User => u.last == some 1 := funext lastFlag_eq
  have hfind : ∀ un' : Option String, resolveUsername si un' =
      match (si.users.users.filter (fun u => u.last == some 1)).head? with
      | some u => some u.username
      | none => un' := by
    intro un'
    rw [resolveUsername, hpred, find_eq_head_filter]
  refine ⟨?_, ?_, ?_, ?_⟩
  · intro u hu
    rw [hfind, hu]
  · intro h
    rw [hfind, h]
    rfl
  · intro h hnone
    subst hnone
    have hru : resolveUsername si none = none := by rw [hfind, h]; rfl
    simp [connect_to_fritzbox_with_credentials, hfb, hru]
  · intro un2 resp hmem
    rcases hru : resolveUsername si username with _ | un
    · simp [connect_to_fritzbox_with_credentials, hfb, hru] at hmem
    · rcases hpr : o.get_session_info k with e | v
      · simp [connect_to_fritzbox_with_credentials, connect_with_credentials, hfb, hru,
          hpr] at hmem
      · rcases v with _ | si1
        · simp [connect_to_fritzbox_with_credentials, connect_with_credentials, hfb, hru,
            hpr] at hmem
        · rcases hgc : get_challenge_response si1.challenge pw with _ | r
          · simp [connect_to_fritzbox_with_credentials, connect_with_credentials, hfb,
              hru, hpr, hgc] at hmem
          · rcases hcr : o.connect_with_credentials un r with e | v2
            · simp [connect_to_fritzbox_with_credentials, connect_with_credentials, hfb,
                hru, hpr, hgc, hcr] at hmem
              rw [hmem.1]
            · rcases v2 with _ | si2
              · simp [connect_to_fritzbox_with_credentials, connect_with_credentials,
                  hfb, hru, hpr, hgc, hcr] at hmem
                rw [hmem.1]
              · simp [connect_to_fritzbox_with_credentials, connect_with_credentials,
                  hfb, hru, hpr, hgc, hcr] at hmem
                rw [hmem.1]

/-- C9 witness: with users alice (not flagged), bob and carol (both
flagged `last = Some(1)`), resolution picks bob — the first flagged user. -/
theorem c9_username_resolution_witness :
    (FritzboxState.mk (some ⟨"1111111111111111", "c",
        ⟨[⟨"alice", some 0⟩, ⟨"bob", some 1⟩, ⟨"carol", some 1⟩]⟩⟩)).session_info =
      some ⟨"1111111111111111", "c",
        ⟨[⟨"alice", some 0⟩, ⟨"bob", some 1⟩, ⟨"carol", some 1⟩]⟩⟩ ∧
    ((∀ u, ((⟨"1111111111111111", "c",
          ⟨[⟨"alice", some 0⟩, ⟨"bob", some 1⟩, ⟨"carol", some 1⟩]⟩⟩ :
            SessionInfo).users.users.filter (fun u => u.last == some 1)).head? = some u →
        resolveUsername ⟨"1111111111111111", "c",
          ⟨[⟨"alice", some 0⟩, ⟨"bob", some 1⟩, ⟨"carol", some 1⟩]⟩⟩ (some "admin") =
          some u.username) ∧
      (((⟨"1111111111111111", "c",
          ⟨[⟨"alice", some 0⟩, ⟨"bob", some 1⟩, ⟨"carol", some 1⟩]⟩⟩ :
            SessionInfo).users.users.filter (fun u => u.last == some 1)) = [] →
        resolveUsername ⟨"1111111111111111", "c",
          ⟨[⟨"alice", some 0⟩, ⟨"bob", some 1⟩, ⟨"carol", some 1⟩]⟩⟩ (some "admin") =
          some "admin") ∧
      ((⟨"1111111111111111", "c",
          ⟨[⟨"alice", some 0⟩, ⟨"bob", some 1⟩, ⟨"carol", some 1⟩]⟩⟩ :
            SessionInfo).users.users.filter (fun u => u.last == some 1) = [] →
        (some "admin" : Option String) = none →
        connect_to_fritzbox_with_credentials c3Oracle 0
            ⟨some ⟨"1111111111111111", "c",
              ⟨[⟨"alice", some 0⟩, ⟨"bob", some 1⟩, ⟨"carol", some 1⟩]⟩⟩⟩
            (some "admin") "pw" =
          (⟨some ⟨"1111111111111111", "c",
            ⟨[⟨"alice", some 0⟩, ⟨"bob", some 1⟩, ⟨"carol", some 1⟩]⟩⟩⟩, [],
            .panicked "No username available.")) ∧
      (∀ un2 resp, Event.credAuth un2 resp ∈
          (connect_to_fritzbox_with_credentials c3Oracle 0
            ⟨some ⟨"1111111111111111", "c",
              ⟨[⟨"alice", some 0⟩, ⟨"bob", some 1⟩, ⟨"carol", some 1⟩]⟩⟩⟩
            (some "admin") "pw").2.1 →
        resolveUsername ⟨"1111111111111111", "c",
          ⟨[⟨"alice", some 0⟩, ⟨"bob", some 1⟩, ⟨"carol", some 1⟩]⟩⟩ (some "admin") =
          some un2)) :=
  ⟨rfl,
    c9_username_resolution c3Oracle 0
      ⟨some ⟨"1111111111111111", "c",
        ⟨[⟨"alice", some 0⟩, ⟨"bob", some 1⟩, ⟨"carol", some 1⟩]⟩⟩⟩
      ⟨"1111111111111111", "c", ⟨[⟨"alice", some 0⟩, ⟨"bob", some 1⟩, ⟨"carol", some 1⟩]⟩⟩
      (some "admin") "pw" rfl⟩

end Fritzer
